import Mathlib

/-
Verification development for the casting-agency backend.

The authorization core lives in src/backend/src/auth/auth.py and the HTTP
layer in src/backend/src/api.py.  External collaborators (the jose JWT
library, the network fetch of the JWKS document, the database rows, the
parsed request body) are modelled as explicit inputs: each external call
site becomes a parameter carrying that call's outcome.  Unhandled Python
exceptions (paths where the source raises something that is not an
AuthError) are modelled by dedicated result constructors, never silently
dropped.
-/

namespace CastingAgency

/-- The AuthError exception of auth.py: a dict with a machine-readable
code and a human-readable description, plus an HTTP status code. -/
structure AuthErr where
  code : String
  description : String
  status : Nat
deriving Repr, DecidableEq

/-! ### Token extractor: get_token_auth_header (auth.py lines 38-72) -/

/-- Result of get_token_auth_header.  `indexError` models the unhandled
Python IndexError raised by `parts[0]` when `auth.split()` returns an
empty list (header present but consisting only of whitespace). -/
inductive ExtractResult where
  | ok (token : String)
  | authError (e : AuthErr)
  | indexError
deriving Repr, DecidableEq

/-- Worker for splitWs: walks the characters, accumulating the current
word (reversed); whitespace ends a word, and empty pieces are dropped. -/
def wordsAux : List Char → List Char → List String
  | [], acc => if acc.isEmpty then [] else [String.mk acc.reverse]
  | c :: cs, acc =>
    if c.isWhitespace then
      if acc.isEmpty then wordsAux cs []
      else String.mk acc.reverse :: wordsAux cs []
    else wordsAux cs (c :: acc)

/-- Python str.split() with no arguments: split on runs of whitespace,
discarding empty pieces. -/
def splitWs (s : String) : List String :=
  wordsAux s.data []

/-- Python str.lower(), character by character. -/
def lowerStr (s : String) : String :=
  String.mk (s.data.map Char.toLower)

/-- get_token_auth_header, over the optional Authorization header value.
`none` models an absent header; the empty string is falsy in Python, so it
takes the same `authorization_header_missing` branch as an absent header. -/
def get_token_auth_header (auth : Option String) : ExtractResult :=
  match auth with
  | none =>
    .authError ⟨"authorization_header_missing", "Authorization header is expected.", 401⟩
  | some a =>
    if a = "" then
      .authError ⟨"authorization_header_missing", "Authorization header is expected.", 401⟩
    else
      match splitWs a with
      | [] => .indexError
      | p0 :: rest =>
        if lowerStr p0 != "bearer" then
          .authError ⟨"invalid_header", "Authorization header must start with \x27Bearer\x27.", 401⟩
        else
          match rest with
          | [] => .authError ⟨"invalid_header", "Token not found.", 401⟩
          | [t] => .ok t
          | _ :: _ :: _ =>
            .authError ⟨"invalid_header", "Authorization header must be \x27Bearer <token>\x27.", 401⟩

/-! ### Permission enforcer: check_permissions (auth.py lines 76-91) -/

/-- The decoded JWT payload, as far as the core inspects it:
`permissions = none` models a payload dict with no "permissions" key,
`some perms` models the value of that key (a list of permission strings). -/
structure Claims where
  permissions : Option (List String)
deriving Repr, DecidableEq

/-- check_permissions: raises (models as .error) invalid_claims/403 when
the payload has no "permissions" entry, unauthorized/403 when the required
permission is not a member, and returns True otherwise. -/
def check_permissions (permission : String) (payload : Claims) : Except AuthErr Bool :=
  match payload.permissions with
  | none =>
    .error ⟨"invalid_claims", "Permissions not included in JWT.", 403⟩
  | some perms =>
    if permission ∈ perms then .ok true
    else .error ⟨"unauthorized", "Permission not found.", 403⟩

/-! ### Token verifier: verify_decode_jwt (auth.py lines 95-166) -/

/-- One entry of the JWKS document fetched from the identity provider. -/
structure JwksKey where
  kid : String
  kty : String
  use : String
  n : String
  e : String
deriving Repr, DecidableEq

/-- The fetched JWKS document (its "keys" array). -/
structure Jwks where
  keys : List JwksKey
deriving Repr, DecidableEq

/-- The unverified token header as returned by jwt.get_unverified_header:
the core only inspects its optional "kid" entry. -/
structure UnverifiedHeader where
  kid : Option String
deriving Repr, DecidableEq

/-- The rsa_key dict built inside verify_decode_jwt from a matching JWKS
entry. -/
structure RsaKey where
  kty : String
  kid : String
  use : String
  n : String
  e : String
deriving Repr, DecidableEq

/-- Outcome of the external jwt.decode call: success with a payload, or
one of the three exception classes the source distinguishes
(ExpiredSignatureError, JWTClaimsError, any other Exception). -/
inductive DecodeOutcome where
  | ok (payload : Claims)
  | expiredSignature
  | claimsError
  | otherError
deriving Repr, DecidableEq

/-- The external jose library, as an oracle: `getUnverifiedHeader` models
jwt.get_unverified_header (an .error carries str(e) of the JWTError), and
`decode` models jwt.decode of a token against a resolved rsa_key with the
configured algorithms, audience and issuer. -/
structure JoseEnv where
  getUnverifiedHeader : String → Except String UnverifiedHeader
  decode : String → RsaKey → DecodeOutcome

/-- The rsa_key dict literal built at auth.py lines 121-127. -/
def mkRsaKey (k : JwksKey) : RsaKey :=
  ⟨k.kty, k.kid, k.use, k.n, k.e⟩

/-- The for-loop at auth.py lines 118-127: starts from the empty (falsy)
dict and overwrites on every matching entry, so the last match wins and
the result is falsy exactly when no entry matches. -/
def findRsaKey (jwks : Jwks) (kid : String) : Option RsaKey :=
  jwks.keys.foldl (fun acc k => if k.kid = kid then some (mkRsaKey k) else acc) none

/-- Result of verify_decode_jwt.  `pythonError` models an exception that
is not an AuthError escaping the function (the unguarded urlopen /
json.loads of lines 96-97 have no try/except around them). -/
inductive VerifyResult where
  | ok (payload : Claims)
  | authError (e : AuthErr)
  | pythonError (msg : String)
deriving Repr, DecidableEq

/-- verify_decode_jwt.  `fetched` is the outcome of
urlopen + json.loads on the JWKS endpoint (lines 96-97); an .error there
is an unhandled urllib / JSON exception that propagates out of the
function untouched, since those two lines are outside any try/except. -/
def verify_decode_jwt (env : JoseEnv) (fetched : Except String Jwks) (token : String) :
    VerifyResult :=
  match fetched with
  | .error msg => .pythonError msg
  | .ok jwks =>
    match env.getUnverifiedHeader token with
    | .error emsg =>
      .authError ⟨"invalid_header", "Error decoding token header: " ++ emsg, 400⟩
    | .ok hdr =>
      match hdr.kid with
      | none =>
        .authError ⟨"invalid_header", "Authorization header is malformed.", 401⟩
      | some kid =>
        match findRsaKey jwks kid with
        | some rsa =>
          match env.decode token rsa with
          | .ok payload => .ok payload
          | .expiredSignature =>
            .authError ⟨"token_expired", "Token is expired.", 401⟩
          | .claimsError =>
            .authError ⟨"invalid_claims", "Incorrect claims. Check audience and issuer.", 401⟩
          | .otherError =>
            .authError ⟨"invalid_header", "Unable to parse authentication token.", 400⟩
        | none =>
          .authError ⟨"invalid_header", "Unable to find the appropriate key.", 400⟩

/-! ### Authorization gate: requires_auth (auth.py lines 170-181) -/

/-- Result of a wrapped endpoint invocation. -/
inductive HandlerResult (α : Type) where
  | ok (r : α)
  | authError (e : AuthErr)
  | pythonError (msg : String)
deriving Repr, DecidableEq

/-- The wrapper produced by requires_auth(permission) around an endpoint
f: extract the token, verify and decode it, check the permission, then
call f with the decoded payload prepended to the original arguments.  Any
exception raised by a stage propagates (no try/except in the wrapper). -/
def requires_auth {α β : Type} (permission : String) (env : JoseEnv)
    (fetched : Except String Jwks) (f : Claims → α → β) (args : α)
    (authHeader : Option String) : HandlerResult β :=
  match get_token_auth_header authHeader with
  | .indexError => .pythonError "IndexError: list index out of range"
  | .authError e => .authError e
  | .ok token =>
    match verify_decode_jwt env fetched token with
    | .pythonError msg => .pythonError msg
    | .authError e => .authError e
    | .ok payload =>
      match check_permissions permission payload with
      | .error e => .authError e
      | .ok _ => .ok (f payload args)

/-! ### The HTTP layer: api.py -/

/-- A JSON value, for response bodies. -/
inductive Json where
  | null
  | str (s : String)
  | num (n : Int)
  | bool (b : Bool)
  | arr (xs : List Json)
  | obj (fields : List (String × Json))

/-- Association lookup in a JSON object / parsed request body, modelling
Python dict lookup and dict.get(k, None). -/
def jget (fields : List (String × Json)) (k : String) : Option Json :=
  (fields.find? (fun kv => kv.1 == k)).map (fun kv => kv.2)

/-- Python truthiness of an optional JSON value (None, "", 0, False, [],
and the empty dict are falsy). -/
def truthy : Option Json → Bool
  | none => false
  | some .null => false
  | some (.str s) => s != ""
  | some (.num n) => n != 0
  | some (.bool b) => b
  | some (.arr xs) => !xs.isEmpty
  | some (.obj fs) => !fs.isEmpty

/-- A response body: a JSON document produced by jsonify, or the default
(non-JSON, HTML) error document werkzeug renders for an HTTPException
whose status has no registered error handler. -/
inductive Body where
  | json (j : Json)
  | defaultHtml (desc : String)

/-- An HTTP response: body plus status code. -/
structure HttpResponse where
  body : Body
  status : Nat

/-- An Actor row {id, name, age, gender} of models.py. -/
structure ActorRec where
  id : Int
  name : String
  age : Int
  gender : String
deriving Repr, DecidableEq

/-- A Movie row {id, title, release_date} of models.py; the date is kept
as its formatted ISO string. -/
structure MovieRec where
  id : Int
  title : String
  release_date : String
deriving Repr, DecidableEq

/-- Actor.format() of models.py. -/
def actorFormat (a : ActorRec) : Json :=
  .obj [("id", .num a.id), ("name", .str a.name), ("age", .num a.age),
        ("gender", .str a.gender)]

/-- Movie.format() of models.py (release_date via strftime "%Y-%m-%d"). -/
def movieFormat (m : MovieRec) : Json :=
  .obj [("id", .num m.id), ("title", .str m.title),
        ("release_date", .str m.release_date)]

/-- Endpoint bodies either return a response or abort(status, description)
with a werkzeug HTTPException; `Except (Nat × String)` carries the abort. -/
abbrev Handler := Except (Nat × String) HttpResponse

/-- GET / (api.py lines 37-39). -/
def get_health : HttpResponse :=
  ⟨.json (.obj [("success", .bool true), ("health", .bool true)]), 200⟩

/-- GET /actors (api.py lines 41-49): aborts 404 when the query returns
no rows, otherwise returns the formatted rows. -/
def get_actors (rows : List ActorRec) : Handler :=
  if rows.isEmpty then
    .error (404, "No actors found")
  else
    .ok ⟨.json (.obj [("success", .bool true),
      ("actors", .arr (rows.map actorFormat))]), 200⟩

/-- GET /movies (api.py lines 51-59). -/
def get_movies (rows : List MovieRec) : Handler :=
  if rows.isEmpty then
    .error (404, "No movies found")
  else
    .ok ⟨.json (.obj [("success", .bool true),
      ("movies", .arr (rows.map movieFormat))]), 200⟩

/-- POST /actors (api.py lines 61-76).  `body?` is request.get_json():
none when no JSON was provided; an empty object is falsy and takes the
same abort.  `newId` is the id the database assigns on insert. -/
def create_actor (newId : Int) (body? : Option (List (String × Json))) : Handler :=
  match body? with
  | none => .error (400, "Bad request, no data provided")
  | some body =>
    if body.isEmpty then .error (400, "Bad request, no data provided")
    else
      let name := jget body "name"
      let age := jget body "age"
      let gender := jget body "gender"
      if !truthy name || !truthy age || !truthy gender then
        .error (400, "Missing required fields")
      else
        .ok ⟨.json (.obj [("success", .bool true),
          ("actor", .obj [("id", .num newId), ("name", name.getD .null),
            ("age", age.getD .null), ("gender", gender.getD .null)])]), 200⟩

/-- POST /movies (api.py lines 78-92). -/
def create_movie (newId : Int) (body? : Option (List (String × Json))) : Handler :=
  match body? with
  | none => .error (400, "Bad request, no data provided")
  | some body =>
    if body.isEmpty then .error (400, "Bad request, no data provided")
    else
      let title := jget body "title"
      let release_date := jget body "release_date"
      if !truthy title || !truthy release_date then
        .error (400, "Missing required fields")
      else
        .ok ⟨.json (.obj [("success", .bool true),
          ("movie", .obj [("id", .num newId), ("title", title.getD .null),
            ("release_date", release_date.getD .null)])]), 200⟩

/-- Outcome of a PATCH handler: a response, an abort(status, desc), or
the unhandled TypeError that Python raises when request.get_json()
returned None and the handler evaluates a membership test on it. -/
inductive PatchOutcome where
  | ok (r : HttpResponse)
  | aborted (status : Nat) (desc : String)
  | typeError

/-- PATCH /actors/id (api.py lines 94-109): aborts 404 when the row is
missing; otherwise each of name / age / gender present in the JSON body
overwrites the row's field, and the updated row is formatted back.  When
no JSON body was provided at all, the membership test on None raises an
unhandled TypeError. -/
def update_actor (row? : Option ActorRec) (body? : Option (List (String × Json))) :
    PatchOutcome :=
  match row? with
  | none => .aborted 404 "Actor not found"
  | some a =>
    match body? with
    | none => .typeError
    | some body =>
      let name := match jget body "name" with
        | some v => v
        | none => .str a.name
      let age := match jget body "age" with
        | some v => v
        | none => .num a.age
      let gender := match jget body "gender" with
        | some v => v
        | none => .str a.gender
      .ok ⟨.json (.obj [("success", .bool true),
        ("actor", .obj [("id", .num a.id), ("name", name), ("age", age),
          ("gender", gender)])]), 200⟩

/-- PATCH /movies/id (api.py lines 111-124): same shape as PATCH /actors
for the title and release_date fields. -/
def update_movie (row? : Option MovieRec) (body? : Option (List (String × Json))) :
    PatchOutcome :=
  match row? with
  | none => .aborted 404 "Movie not found"
  | some m =>
    match body? with
    | none => .typeError
    | some body =>
      let title := match jget body "title" with
        | some v => v
        | none => .str m.title
      let release_date := match jget body "release_date" with
        | some v => v
        | none => .str m.release_date
      .ok ⟨.json (.obj [("success", .bool true),
        ("movie", .obj [("id", .num m.id), ("title", title),
          ("release_date", release_date)])]), 200⟩

/-- DELETE /actors/id (api.py lines 126-133): `row?` is
Actor.query.get(id). -/
def delete_actor (row? : Option ActorRec) (id : Int) : Handler :=
  match row? with
  | none => .error (404, "Actor not found")
  | some _ => .ok ⟨.json (.obj [("success", .bool true), ("delete", .num id)]), 200⟩

/-- DELETE /movies/id (api.py lines 135-142). -/
def delete_movie (row? : Option MovieRec) (id : Int) : Handler :=
  match row? with
  | none => .error (404, "Movie not found")
  | some _ => .ok ⟨.json (.obj [("success", .bool true), ("delete", .num id)]), 200⟩

/-- The @app.errorhandler(AuthError) handler (api.py lines 145-156):
translates the raised error 1:1 into the JSON envelope, reusing the
error's own status code. -/
def auth_error (e : AuthErr) : HttpResponse :=
  ⟨.json (.obj [("success", .bool false), ("error", .num e.status),
    ("message", .str e.description)]), e.status⟩

/-- The registered @app.errorhandler responses for plain HTTP statuses
(api.py lines 158-184): only 422, 404 and 500 are registered; every other
status (in particular 400) has no handler. -/
def registered_handler (status : Nat) : Option HttpResponse :=
  if status = 422 then
    some ⟨.json (.obj [("success", .bool false), ("error", .num 422),
      ("message", .str "unprocessable")]), 422⟩
  else if status = 404 then
    some ⟨.json (.obj [("success", .bool false), ("error", .num 404),
      ("message", .str "resource not found")]), 404⟩
  else if status = 500 then
    some ⟨.json (.obj [("success", .bool false), ("error", .num 500),
      ("message", .str "Internal Server Error. Please try again later.")]), 500⟩
  else none

/-- Flask dispatch of a handler outcome: an abort(status, desc) is routed
to the registered error handler for that status when one exists, and
otherwise rendered as werkzeug's default (non-JSON) error document. -/
def run_endpoint (h : Handler) : HttpResponse :=
  match h with
  | .ok r => r
  | .error (status, desc) =>
    match registered_handler status with
    | some r => r
    | none => ⟨.defaultHtml desc, status⟩

/-- A whole protected endpoint: the requires_auth wrapper around a
handler body, then Flask's error dispatch.  An AuthError goes to the
auth_error handler; a non-HTTP exception escaping the wrapper is turned
into a 500 and handled by the registered 500 handler. -/
def run_protected (permission : String) (env : JoseEnv) (fetched : Except String Jwks)
    (handler : Claims → Handler) (authHeader : Option String) : HttpResponse :=
  match requires_auth permission env fetched (fun p (_ : Unit) => handler p) () authHeader with
  | .ok h => run_endpoint h
  | .authError e => auth_error e
  | .pythonError _ =>
    match registered_handler 500 with
    | some r => r
    | none => ⟨.defaultHtml "Internal Server Error", 500⟩

/-! ### Response envelope predicates (spec section 6) -/

/-- The response body is a JSON object with a boolean "success" field. -/
def envelopeOk (r : HttpResponse) : Bool :=
  match r.body with
  | .json (.obj fs) =>
    match jget fs "success" with
    | some (.bool _) => true
    | _ => false
  | _ => false

/-- The response is a failure envelope: JSON object with success = false,
an integer "error" equal to the HTTP status, and a string "message". -/
def failureEnvelopeOk (r : HttpResponse) : Bool :=
  match r.body with
  | .json (.obj fs) =>
    (match jget fs "success" with
     | some (.bool false) => true
     | _ => false) &&
    (match jget fs "error" with
     | some (.num n) => n == (r.status : Int)
     | _ => false) &&
    (match jget fs "message" with
     | some (.str _) => true
     | _ => false)
  | _ => false

/-! ### Concrete fixtures for witnesses -/

/-- A one-entry key set whose key has kid "k1". -/
def cJwks : Jwks :=
  ⟨[⟨"k1", "RSA", "sig", "mod", "AQAB"⟩]⟩

/-- A decoded payload holding a few permissions. -/
def cClaims : Claims :=
  ⟨some ["get:actors", "get:movies", "post:actors"]⟩

/-- A jose oracle for which every token parses with kid "k1" and decodes
to cClaims. -/
def cEnv : JoseEnv :=
  ⟨fun _ => .ok ⟨some "k1"⟩, fun _ _ => .ok cClaims⟩

/-- A jose oracle whose header parsing always fails with message "bad". -/
def cEnvBadHeader : JoseEnv :=
  ⟨fun _ => .error "bad", fun _ _ => .otherError⟩

/-- A jose oracle whose parsed header declares a kid ("zz") that no
fixture key set contains. -/
def cEnvNoKey : JoseEnv :=
  ⟨fun _ => .ok ⟨some "zz"⟩, fun _ _ => .otherError⟩

/-! ### Claim theorems -/

/-- Claim C7: check_permissions fails with invalid_claims /
"Permissions not included in JWT." / 403 when the payload has no
permissions entry, with unauthorized / "Permission not found." / 403 when
the required permission is not a member of the permissions collection,
and otherwise returns True.  It is a pure function of its two arguments,
so it modifies no state. -/
theorem C7_check_permissions_contract (permission : String) (payload : Claims) :
    (payload.permissions = none →
      check_permissions permission payload =
        .error ⟨"invalid_claims", "Permissions not included in JWT.", 403⟩)
    ∧ (∀ perms, payload.permissions = some perms → permission ∉ perms →
      check_permissions permission payload =
        .error ⟨"unauthorized", "Permission not found.", 403⟩)
    ∧ (∀ perms, payload.permissions = some perms → permission ∈ perms →
      check_permissions permission payload = .ok true) := by
  refine ⟨?_, ?_, ?_⟩
  · intro h
    simp [check_permissions, h]
  · intro perms h hmem
    simp [check_permissions, h, hmem]
  · intro perms h hmem
    simp [check_permissions, h, hmem]

/-- Witness for C7 at a concrete payload with no permissions entry. -/
theorem C7_check_permissions_contract_witness :
    check_permissions "get:actors" ⟨none⟩ =
      .error ⟨"invalid_claims", "Permissions not included in JWT.", 403⟩ :=
  (C7_check_permissions_contract "get:actors" ⟨none⟩).1 rfl

/-- Claim C6: when the Authorization header is present and its first
whitespace-separated part case-insensitively equals "bearer", the
extractor raises invalid_header / "Token not found." / 401 on exactly one
part, returns the second part verbatim on exactly two parts, and raises
invalid_header / 401 on more than two parts. -/
theorem C6_bearer_parts_contract (a p0 : String) (rest : List String)
    (hs : splitWs a = p0 :: rest) (hb : lowerStr p0 = "bearer") :
    (rest = [] → get_token_auth_header (some a) =
      .authError ⟨"invalid_header", "Token not found.", 401⟩)
    ∧ (∀ t, rest = [t] → get_token_auth_header (some a) = .ok t)
    ∧ (2 ≤ rest.length → get_token_auth_header (some a) =
      .authError
        ⟨"invalid_header", "Authorization header must be \x27Bearer <token>\x27.", 401⟩) := by
  have ha : ¬(a = "") := by
    intro h
    subst h
    simp [splitWs, wordsAux] at hs
  refine ⟨?_, ?_, ?_⟩
  · intro h
    subst h
    simp [get_token_auth_header, ha, hs, hb]
  · intro t h
    subst h
    simp [get_token_auth_header, ha, hs, hb]
  · intro h
    match rest, h with
    | t1 :: t2 :: rs, _ =>
      simp [get_token_auth_header, ha, hs, hb]

/-- Witness for C6: a two-part bearer header returns its token. -/
theorem C6_bearer_parts_contract_witness :
    get_token_auth_header (some "Bearer x") = .ok "x" :=
  (C6_bearer_parts_contract "Bearer x" "Bearer" ["x"] (by decide) (by decide)).2.1 "x" rfl

/-- The extraction outcome is an AuthError carrying the given code and
status (of whatever description). -/
def isAuthErrorWith (r : ExtractResult) (code : String) (status : Nat) : Bool :=
  match r with
  | .authError e => e.code == code && e.status == status
  | _ => false

/-- Claim C5 fails on the code: a present Authorization header consisting
only of whitespace makes auth.split() return an empty list, so parts[0]
raises an unhandled IndexError instead of any AuthError.  At the concrete
header " " the extractor produces no invalid_header / 401 error of any
description. -/
theorem C5_whitespace_header_counterexample :
    get_token_auth_header (some " ") = .indexError ∧
    isAuthErrorWith (get_token_auth_header (some " ")) "invalid_header" 401 = false := by
  constructor <;> decide

/-- Claim C5 as amended: for a present header with at least one
whitespace-separated part whose first part is not case-insensitively
"bearer", the extractor fails with invalid_header / 401; a present
non-empty header with no parts at all (only whitespace) instead hits the
unhandled IndexError path. -/
theorem C5_nonbearer_header_amended (a : String) :
    (∀ p0 rest, splitWs a = p0 :: rest → lowerStr p0 ≠ "bearer" →
      get_token_auth_header (some a) =
        .authError
          ⟨"invalid_header", "Authorization header must start with \x27Bearer\x27.", 401⟩)
    ∧ (a ≠ "" → splitWs a = [] → get_token_auth_header (some a) = .indexError) := by
  constructor
  · intro p0 rest hs hb
    have ha : ¬(a = "") := by
      intro h
      subst h
      simp [splitWs, wordsAux] at hs
    simp [get_token_auth_header, ha, hs, hb]
  · intro ha hs
    simp [get_token_auth_header, ha, hs]

/-- Witness for the amended C5 at the concrete header "Basic abc". -/
theorem C5_nonbearer_header_amended_witness :
    get_token_auth_header (some "Basic abc") =
      .authError
        ⟨"invalid_header", "Authorization header must start with \x27Bearer\x27.", 401⟩ :=
  (C5_nonbearer_header_amended "Basic abc").1 "Basic" ["abc"] (by decide) (by decide)

/-- Claim C1: with the key set fetched, the two header-stage failures of
verify_decode_jwt share the code string "invalid_header" but carry
distinct statuses: a header that cannot be parsed gives status 400, and a
parsed header with no kid entry gives status 401. -/
theorem C1_header_stage_statuses (env : JoseEnv) (jwks : Jwks) (token : String) :
    (∀ msg, env.getUnverifiedHeader token = .error msg →
      verify_decode_jwt env (.ok jwks) token =
        .authError ⟨"invalid_header", "Error decoding token header: " ++ msg, 400⟩)
    ∧ (∀ hdr, env.getUnverifiedHeader token = .ok hdr → hdr.kid = none →
      verify_decode_jwt env (.ok jwks) token =
        .authError ⟨"invalid_header", "Authorization header is malformed.", 401⟩) := by
  constructor
  · intro msg h
    simp [verify_decode_jwt, h]
  · intro hdr h hk
    simp [verify_decode_jwt, h, hk]

/-- Witness for C1: a token whose header parsing fails with message
"bad" yields invalid_header / 400 with the interpolated description. -/
theorem C1_header_stage_statuses_witness :
    verify_decode_jwt cEnvBadHeader (.ok cJwks) "t" =
      .authError ⟨"invalid_header", "Error decoding token header: bad", 400⟩ :=
  (C1_header_stage_statuses cEnvBadHeader cJwks "t").1 "bad" rfl

/-- The key-resolution loop of verify_decode_jwt leaves rsa_key empty
when no fetched key carries the wanted kid. -/
theorem findRsaKey_eq_none (jwks : Jwks) (kid : String)
    (h : ∀ k ∈ jwks.keys, k.kid ≠ kid) : findRsaKey jwks kid = none := by
  have aux : ∀ (keys : List JwksKey) (acc : Option RsaKey),
      (∀ k ∈ keys, k.kid ≠ kid) →
      keys.foldl (fun acc k => if k.kid = kid then some (mkRsaKey k) else acc) acc = acc := by
    intro keys
    induction keys with
    | nil => intro acc _; rfl
    | cons k ks ih =>
      intro acc hk
      simp only [List.foldl_cons]
      rw [if_neg (hk k (by simp))]
      exact ih acc (fun x hx => hk x (by simp [hx]))
  exact aux jwks.keys none h

/-- Claim C2: once the header parses and declares a kid, each subsequent
failure of verify_decode_jwt maps to exactly one error: no key set entry
with that kid gives invalid_header / "Unable to find the appropriate
key." / 400; an expired signature on the resolved key gives
token_expired / 401; an audience or issuer mismatch gives
invalid_claims / 401 with a message mentioning "Check audience and
issuer"; any other verification failure gives invalid_header / "Unable to
parse authentication token." / 400; and success returns the decoded
payload. -/
theorem C2_verify_failure_taxonomy (env : JoseEnv) (jwks : Jwks) (token : String)
    (hdr : UnverifiedHeader) (kid : String)
    (hh : env.getUnverifiedHeader token = .ok hdr) (hk : hdr.kid = some kid) :
    ((∀ k ∈ jwks.keys, k.kid ≠ kid) →
      verify_decode_jwt env (.ok jwks) token =
        .authError ⟨"invalid_header", "Unable to find the appropriate key.", 400⟩)
    ∧ (∀ rsa, findRsaKey jwks kid = some rsa →
      (env.decode token rsa = .expiredSignature →
        verify_decode_jwt env (.ok jwks) token =
          .authError ⟨"token_expired", "Token is expired.", 401⟩)
      ∧ (env.decode token rsa = .claimsError →
        verify_decode_jwt env (.ok jwks) token =
          .authError ⟨"invalid_claims", "Incorrect claims. Check audience and issuer.", 401⟩)
      ∧ (env.decode token rsa = .otherError →
        verify_decode_jwt env (.ok jwks) token =
          .authError ⟨"invalid_header", "Unable to parse authentication token.", 400⟩)
      ∧ (∀ payload, env.decode token rsa = .ok payload →
        verify_decode_jwt env (.ok jwks) token = .ok payload)) := by
  constructor
  · intro hnone
    simp [verify_decode_jwt, hh, hk, findRsaKey_eq_none jwks kid hnone]
  · intro rsa hrsa
    refine ⟨?_, ?_, ?_, ?_⟩
    · intro hd
      simp [verify_decode_jwt, hh, hk, hrsa, hd]
    · intro hd
      simp [verify_decode_jwt, hh, hk, hrsa, hd]
    · intro hd
      simp [verify_decode_jwt, hh, hk, hrsa, hd]
    · intro payload hd
      simp [verify_decode_jwt, hh, hk, hrsa, hd]

/-- Witness for C2: a token declaring kid "zz" against a key set holding
only kid "k1" fails with the appropriate-key error. -/
theorem C2_verify_failure_taxonomy_witness :
    verify_decode_jwt cEnvNoKey (.ok cJwks) "t" =
      .authError ⟨"invalid_header", "Unable to find the appropriate key.", 400⟩ :=
  (C2_verify_failure_taxonomy cEnvNoKey cJwks "t" ⟨some "zz"⟩ "zz" rfl rfl).1 (by decide)

/-- Claim C3: whenever token extraction, token verification or the
permission check raises an AuthError, the wrapper built by requires_auth
returns that very error for every wrapped operation f — so the result
never depends on f, i.e. f is not invoked — and the boundary handler
auth_error translates the error into the envelope built from the error's
own status and description, unchanged. -/
theorem C3_auth_error_short_circuits {α β : Type} (permission : String) (env : JoseEnv)
    (fetched : Except String Jwks) (authHeader : Option String) (args : α) :
    (∀ e, get_token_auth_header authHeader = .authError e →
      ∀ f : Claims → α → β,
        requires_auth permission env fetched f args authHeader = .authError e)
    ∧ (∀ t e, get_token_auth_header authHeader = .ok t →
      verify_decode_jwt env fetched t = .authError e →
      ∀ f : Claims → α → β,
        requires_auth permission env fetched f args authHeader = .authError e)
    ∧ (∀ t payload e, get_token_auth_header authHeader = .ok t →
      verify_decode_jwt env fetched t = .ok payload →
      check_permissions permission payload = .error e →
      ∀ f : Claims → α → β,
        requires_auth permission env fetched f args authHeader = .authError e)
    ∧ (∀ e : AuthErr, auth_error e =
      ⟨.json (.obj [("success", .bool false), ("error", .num e.status),
        ("message", .str e.description)]), e.status⟩) := by
  refine ⟨?_, ?_, ?_, fun e => rfl⟩
  · intro e he f
    simp [requires_auth, he]
  · intro t e ht hv f
    simp [requires_auth, ht, hv]
  · intro t payload e ht hv hc f
    simp [requires_auth, ht, hv, hc]

/-- Witness for C3: with no Authorization header the wrapper returns the
missing-header error and the wrapped operation (here fun p n => n + 1) is
not consulted. -/
theorem C3_auth_error_short_circuits_witness :
    requires_auth "get:actors" cEnv (.ok cJwks) (fun (_ : Claims) (n : Nat) => n + 1) 0 none =
      .authError ⟨"authorization_header_missing", "Authorization header is expected.", 401⟩ :=
  (C3_auth_error_short_circuits "get:actors" cEnv (.ok cJwks) none 0).1
    ⟨"authorization_header_missing", "Authorization header is expected.", 401⟩ rfl
    (fun _ n => n + 1)

/-- Claim C4: for a request whose bearer header extracts to a token that
verifies to a payload whose permissions contain the required permission,
the wrapper returns exactly the wrapped operation applied once to the
decoded payload prepended to the original arguments. -/
theorem C4_success_invokes_wrapped {α β : Type} (permission : String) (env : JoseEnv)
    (fetched : Except String Jwks) (authHeader : Option String) (args : α)
    (f : Claims → α → β) (t : String) (payload : Claims) (perms : List String)
    (he : get_token_auth_header authHeader = .ok t)
    (hv : verify_decode_jwt env fetched t = .ok payload)
    (hp : payload.permissions = some perms)
    (hperm : permission ∈ perms) :
    requires_auth permission env fetched f args authHeader = .ok (f payload args) := by
  simp [requires_auth, he, hv, check_permissions, hp, hperm]

/-- Witness for C4: a valid bearer request runs the wrapped operation on
the decoded payload and its argument, returning its result unchanged. -/
theorem C4_success_invokes_wrapped_witness :
    requires_auth "get:actors" cEnv (.ok cJwks) (fun (_ : Claims) (n : Nat) => n + 1) 41
      (some "Bearer tok") = .ok 42 :=
  C4_success_invokes_wrapped "get:actors" cEnv (.ok cJwks) (some "Bearer tok") 41
    (fun _ n => n + 1) "tok" cClaims ["get:actors", "get:movies", "post:actors"]
    (by decide) (by decide) rfl (by decide)

/-- The verification outcome is an AuthError (of whatever content). -/
def isVerifyAuthError (r : VerifyResult) : Bool :=
  match r with
  | .authError _ => true
  | _ => false

/-- Claim C9 fails on the code: the urlopen / json.loads of the key-set
document sit outside any try/except, so when the remote endpoint is
unreachable the verifier propagates the raw transport error and produces
no AuthError at all. -/
theorem C9_fetch_failure_counterexample :
    verify_decode_jwt cEnv (.error "URLError: jwks endpoint unreachable") "tok" =
      .pythonError "URLError: jwks endpoint unreachable" ∧
    isVerifyAuthError
      (verify_decode_jwt cEnv (.error "URLError: jwks endpoint unreachable") "tok") =
      false :=
  ⟨rfl, rfl⟩

/-- Claim C9 as amended: within verify_decode_jwt the key-set fetch does
not produce an AuthError — its failure escapes the function as the raw
(non-AuthError) exception — while once the key set has been fetched,
every failing path of verify_decode_jwt itself produces an AuthError and
nothing else.  (No whole-core statement: the token extractor also has a
non-AuthError failure path, the IndexError of the C5 correction.) -/
theorem C9_fetch_failure_amended :
    (∀ (env : JoseEnv) (msg token : String),
      verify_decode_jwt env (.error msg) token = .pythonError msg)
    ∧ (∀ (env : JoseEnv) (jwks : Jwks) (token msg : String),
      verify_decode_jwt env (.ok jwks) token ≠ .pythonError msg) := by
  constructor
  · intro env msg token
    rfl
  · intro env jwks token msg h
    rcases henv : env.getUnverifiedHeader token with emsg | hdr
    · simp [verify_decode_jwt, henv] at h
    · rcases hk : hdr.kid with _ | kid
      · simp [verify_decode_jwt, henv, hk] at h
      · rcases hf : findRsaKey jwks kid with _ | rsa
        · simp [verify_decode_jwt, henv, hk, hf] at h
        · cases hd : env.decode token rsa <;>
            simp [verify_decode_jwt, henv, hk, hf, hd] at h

/-- Witness for the amended C9 at a concrete failed fetch. -/
theorem C9_fetch_failure_amended_witness :
    verify_decode_jwt cEnv (.error "boom") "t" = .pythonError "boom" :=
  C9_fetch_failure_amended.1 cEnv "boom" "t"

/-- Claim C10: with a valid token whose permissions include the required
read permission, GET /actors over an empty actor table dispatches to the
registered 404 handler and returns the "resource not found" failure
envelope rather than a 200 success, and likewise GET /movies over an
empty movie table. -/
theorem C10_empty_table_404 (env : JoseEnv) (fetched : Except String Jwks)
    (authHeader : Option String) (t : String) (payload : Claims) (perms : List String)
    (he : get_token_auth_header authHeader = .ok t)
    (hv : verify_decode_jwt env fetched t = .ok payload)
    (hp : payload.permissions = some perms) :
    ("get:actors" ∈ perms →
      run_protected "get:actors" env fetched (fun _ => get_actors []) authHeader =
        ⟨.json (.obj [("success", .bool false), ("error", .num 404),
          ("message", .str "resource not found")]), 404⟩)
    ∧ ("get:movies" ∈ perms →
      run_protected "get:movies" env fetched (fun _ => get_movies []) authHeader =
        ⟨.json (.obj [("success", .bool false), ("error", .num 404),
          ("message", .str "resource not found")]), 404⟩) := by
  constructor
  · intro hm
    simp [run_protected, requires_auth, he, hv, check_permissions, hp, hm,
      get_actors, run_endpoint, registered_handler]
  · intro hm
    simp [run_protected, requires_auth, he, hv, check_permissions, hp, hm,
      get_movies, run_endpoint, registered_handler]

/-- Witness for C10: a concrete valid request for GET /actors over an
empty table gets the 404 failure envelope. -/
theorem C10_empty_table_404_witness :
    run_protected "get:actors" cEnv (.ok cJwks) (fun _ => get_actors [])
      (some "Bearer tok") =
      ⟨.json (.obj [("success", .bool false), ("error", .num 404),
        ("message", .str "resource not found")]), 404⟩ :=
  (C10_empty_table_404 cEnv (.ok cJwks) (some "Bearer tok") "tok" cClaims
    ["get:actors", "get:movies", "post:actors"] (by decide) (by decide) rfl).1
    (by decide)

/-- Claim C8 fails on the code: api.py registers error handlers only for
AuthError, 422, 404 and 500, so the abort(400) taken by POST /actors on a
missing request body is rendered by werkzeug's default handler as a
non-JSON error document with no "success" field.  Concretely, an
authorized POST /actors with no JSON body yields that default 400 page. -/
theorem C8_envelope_counterexample :
    run_protected "post:actors" cEnv (.ok cJwks) (fun _ => create_actor 1 none)
        (some "Bearer tok") =
      ⟨.defaultHtml "Bad request, no data provided", 400⟩ ∧
    envelopeOk (run_protected "post:actors" cEnv (.ok cJwks)
        (fun _ => create_actor 1 none) (some "Bearer tok")) = false :=
  ⟨rfl, rfl⟩

/-- Claim C8 as amended: every response produced through the
application's own handlers — the success bodies, the AuthError handler,
and the registered 422 / 404 / 500 handlers — is a JSON object with a
boolean success field, failures additionally carrying an integer error
equal to the HTTP status and a string message; but an abort whose status
has no registered handler (the 400s of the POST body validation) falls
through to werkzeug's default non-JSON error document. -/
theorem C8_envelope_amended :
    (∀ e : AuthErr, failureEnvelopeOk (auth_error e) = true)
    ∧ (∀ s r, registered_handler s = some r →
      failureEnvelopeOk r = true ∧ r.status = s)
    ∧ envelopeOk get_health = true
    ∧ (∀ rows r, get_actors rows = .ok r → envelopeOk r = true)
    ∧ (∀ rows r, get_movies rows = .ok r → envelopeOk r = true)
    ∧ (∀ i b r, create_actor i b = .ok r → envelopeOk r = true)
    ∧ (∀ i b r, create_movie i b = .ok r → envelopeOk r = true)
    ∧ (∀ row i r, delete_actor row i = .ok r → envelopeOk r = true)
    ∧ (∀ row i r, delete_movie row i = .ok r → envelopeOk r = true)
    ∧ (∀ row b r, update_actor row b = .ok r → envelopeOk r = true)
    ∧ (∀ row b r, update_movie row b = .ok r → envelopeOk r = true)
    ∧ (∀ s d, registered_handler s = none →
      run_endpoint (.error (s, d)) = ⟨.defaultHtml d, s⟩) := by
  refine ⟨?_, ?_, rfl, ?_, ?_, ?_, ?_, ?_, ?_, ?_, ?_, ?_⟩
  · intro e
    simp [auth_error, failureEnvelopeOk, jget]
  · intro s r h
    unfold registered_handler at h
    split_ifs at h with h1 h2 h3 <;> cases h <;> subst_vars <;> exact ⟨by decide, rfl⟩
  · intro rows r h
    simp only [get_actors] at h
    split_ifs at h
    all_goals
      first
        | exact Except.noConfusion h
        | (cases h; rfl)
  · intro rows r h
    simp only [get_movies] at h
    split_ifs at h
    all_goals
      first
        | exact Except.noConfusion h
        | (cases h; rfl)
  · intro i b r h
    rcases b with _ | body
    · exact Except.noConfusion h
    · simp only [create_actor] at h
      split_ifs at h
      all_goals
        first
          | exact Except.noConfusion h
          | (cases h; rfl)
  · intro i b r h
    rcases b with _ | body
    · exact Except.noConfusion h
    · simp only [create_movie] at h
      split_ifs at h
      all_goals
        first
          | exact Except.noConfusion h
          | (cases h; rfl)
  · intro row i r h
    rcases row with _ | a
    · exact Except.noConfusion h
    · cases h; rfl
  · intro row i r h
    rcases row with _ | m
    · exact Except.noConfusion h
    · cases h; rfl
  · intro row b r h
    rcases row with _ | a
    · exact PatchOutcome.noConfusion h
    · rcases b with _ | body
      · exact PatchOutcome.noConfusion h
      · cases h; rfl
  · intro row b r h
    rcases row with _ | m
    · exact PatchOutcome.noConfusion h
    · rcases b with _ | body
      · exact PatchOutcome.noConfusion h
      · cases h; rfl
  · intro s d h
    simp [run_endpoint, h]

/-- Witness for the amended C8 at a concrete AuthError. -/
theorem C8_envelope_amended_witness :
    failureEnvelopeOk (auth_error ⟨"unauthorized", "Permission not found.", 403⟩) = true :=
  C8_envelope_amended.1 ⟨"unauthorized", "Permission not found.", 403⟩

end CastingAgency
